import Mathlib

/-!
Verification of the vm_NAP compound-curation pipeline
(`src/prepare_virtual_metabolization.py`, `src/vm_NAP_processing.py`).

Rows of the pandas DataFrames are embedded as Lean structures; each pipeline
function is translated into a pure Lean function over lists of rows.  Floating
point scores are modelled as rationals, missing values (NaN) as `Option`, and
Python's `False`-as-sentinel convention for optional parameters as explicit
sum types.  Printing side effects that the spec talks about (notices) are
returned as Boolean flags; a Python `NameError` is modelled with `Except`.
-/

/-- Python's substring test `pat in s`, computed over the character lists of
the two strings (mirrors `str.__contains__` and `Series.str.contains` with a
plain, non-regex pattern). -/
def charsContain (pat : String) (s : String) : Bool :=
  charsContainAux pat.toList s.toList
where charsContainAux (p : List Char) : List Char → Bool
  | [] => p.isEmpty
  | c :: rest => p.isPrefixOf (c :: rest) || charsContainAux p rest

/-- Python's `s.replace(c, '')` for a one-character pattern: every occurrence
of the character is removed. -/
def pyRemoveChar (c : Char) (s : String) : String :=
  (s.toList.filter (fun a => a != c)).asString

/-- Python's `s.startswith(p)`, over character lists. -/
def pyStartsWith (p : String) (s : String) : Bool :=
  p.toList.isPrefixOf s.toList

/-- One row of the consolidated GNPS annotation table
(`df_annotations` in `prepare_virtual_metabolization.py`).  `Consol_InChI`
is `Option` because the InChI cell can be NaN (`startswith(..., na=False)`),
and `MQScore` is `Option` because the score column can be absent or null
(the SIRIUS table handed to `prepare_for_virtual_metabolization` has no
`MQScore` column at all). -/
structure AnnotRow where
  Compound_Name : String
  Consol_InChI : Option String
  Consol_SMILES : String
  Consol_SMILES_iso : String
  MQScore : Option ℚ
  tags : String
deriving DecidableEq, Repr

/-- Embeds `get_info_gnps_annotations`'s row test
`df_annotations[inchi_column].str.startswith('InChI', na=False)`. -/
def inchiOk (v : Option String) : Bool :=
  match v with
  | some s => pyStartsWith "InChI" s
  | none => false

/-- Embeds `get_info_gnps_annotations` (lines 35-60): keeps the rows whose
`Consol_InChI` starts with `InChI`; the second component is the number of
discarded rows (`number_of_annotations_without_structure`, the size of
`df_annotations_missing_structure`). -/
def get_info_gnps_annotations (df : List AnnotRow) : List AnnotRow × Nat :=
  (df.filter (fun r => inchiOk r.Consol_InChI),
   (df.filter (fun r => !(inchiOk r.Consol_InChI))).length)

/-- Embeds `df_annotations_filtering` (lines 70-88).  The Python `False`
sentinels for `compound_name` and `tags` are modelled as `none`; note that in
Python a provided empty list also satisfies `compound_name != False`, which
`some []` models faithfully.  The Boolean result records whether the
`No Compound_Name or Tags filter used` notice was printed. -/
def df_annotations_filtering (df : List AnnotRow)
    (compound_name : Option (List String)) (tags : Option (List String)) :
    List AnnotRow × Bool :=
  match compound_name, tags with
  | some cn, some tg =>
      (df.filter (fun r => cn.contains r.Compound_Name)
        ++ df.filter (fun r => tg.contains r.tags), false)
  | some cn, none => (df.filter (fun r => cn.contains r.Compound_Name), false)
  | none, some tg => (df.filter (fun r => tg.contains r.tags), false)
  | none, none => (df, true)

/-- The structure column selected by `use_planar_structure` in
`prepare_for_virtual_metabolization` (planar branch keys on
`smiles_planar_column`, the other on `smiles_column`). -/
def structField (use_planar_structure : Bool) (r : AnnotRow) : String :=
  if use_planar_structure then r.Consol_SMILES_iso else r.Consol_SMILES

/-- Score of a row, defaulting to zero; only used to compare rows when every
row actually carries a score. -/
def scoreKey (r : AnnotRow) : ℚ :=
  r.MQScore.getD 0

/-- Descending order on `MQScore`: `a` may come before `b` iff `b`'s score is
at most `a`'s.  Used to state what the sort guarantees about the rows that
carry a score. -/
def scoreOrd (a b : AnnotRow) : Prop :=
  scoreKey b ≤ scoreKey a

instance : DecidableRel scoreOrd :=
  fun a b => inferInstanceAs (Decidable (scoreKey b ≤ scoreKey a))

/-- Ascending order on `MQScore`: the comparison performed by the underlying
ascending argsort. -/
def scoreAsc (a b : AnnotRow) : Prop :=
  scoreKey a ≤ scoreKey b

instance : DecidableRel scoreAsc :=
  fun a b => inferInstanceAs (Decidable (scoreKey a ≤ scoreKey b))

instance : IsTotal AnnotRow scoreAsc :=
  ⟨fun a b => le_total (scoreKey a) (scoreKey b)⟩

instance : IsTrans AnnotRow scoreAsc :=
  ⟨fun _ _ _ h1 h2 => le_trans h1 h2⟩

/-- Embeds `df_annotations.sort_values(by=['MQScore'], ascending=False)`
wrapped in `try/except` (lines 103-106 and 118-121), following pandas'
`nargsort`: the rows carrying a score are argsorted ascending and that order
is then REVERSED for `ascending=False`; the rows with a missing score are
appended at the end in their original relative order (`na_position='last'`).
Consequently tied rows do NOT keep their original relative order: this
embedding realizes the reversed stable ascending order, which is what
numpy's default sort produces on small inputs, while for larger inputs the
tie order is unspecified — no theorem below asserts a tie order except on
concrete two-row inputs, where the reversal is exact.  A frame whose score
column is entirely absent raises `KeyError` inside `sort_values` and the
`except` leaves the order unchanged; such a frame has no scored rows at
all, for which this embedding is the identity. -/
def sortByMQScoreDesc (df : List AnnotRow) : List AnnotRow :=
  let scored := df.filter (fun r => r.MQScore.isSome)
  let unscored := df.filter (fun r => !(r.MQScore.isSome))
  (List.insertionSort scoreAsc scored).reverse ++ unscored

/-- Embeds `DataFrame.drop_duplicates(subset=key, keep='first')`: the first
row carrying each distinct key value is kept, in row order. -/
def dropDuplicates {α : Type} (key : α → String) : List α → List α
  | [] => []
  | r :: rs => r :: (dropDuplicates key rs).filter (fun x => key x != key r)

/-- The pair of parallel output lists stashed by
`prepare_for_virtual_metabolization` on the function object
(`prepare_for_virtual_metabolization.list_compound_name` and
`.list_smiles`), i.e. the process-wide accumulator. -/
structure CompoundLists where
  list_compound_name : List String
  list_smiles : List String
deriving DecidableEq, Repr

/-- Embeds `prepare_for_virtual_metabolization` (lines 91-132): discard rows
whose chosen structure field contains the `nan` sentinel; if
`drop_duplicated_structure`, sort by `MQScore` descending (tolerating a sort
failure) and keep the first row per distinct structure value; project onto
the parallel (name, structure) lists.  Both the planar and the stereo branch
of the source do exactly this, differing only in the structure column used. -/
def prepare_for_virtual_metabolization (df : List AnnotRow)
    (drop_duplicated_structure : Bool) (use_planar_structure : Bool) :
    List AnnotRow × CompoundLists :=
  let field := structField use_planar_structure
  let kept := df.filter (fun r => !(charsContain "nan" (field r)))
  let selected :=
    if drop_duplicated_structure then dropDuplicates field (sortByMQScoreDesc kept)
    else kept
  (selected, ⟨selected.map (fun r => r.Compound_Name), selected.map field⟩)

/-- Embeds the assignments at lines 129-130: the function-attribute
accumulator is bulk-overwritten with the lists computed by the current call,
regardless of its previous content. -/
def prepare_vm_call (acc : CompoundLists) (df : List AnnotRow)
    (drop_duplicated_structure : Bool) (use_planar_structure : Bool) :
    CompoundLists :=
  let out := (prepare_for_virtual_metabolization df drop_duplicated_structure
    use_planar_structure).2
  { acc with
    list_compound_name := out.list_compound_name
    list_smiles := out.list_smiles }

/-- Modelled from the spec: `remove_salt_from_SMILES` lives in the external
`gnps_postprocessing` package (imported at the top of
`prepare_virtual_metabolization.py`), outside this repository's sources.
Per the spec's glossary a salt fragment is a disconnected component of the
structure string, separated by the `.` delimiter, that is not part of the
primary molecular entity; stripping keeps the primary (largest) fragment. -/
def remove_salt_from_SMILES (s : String) : String :=
  ((s.toList.splitOn '.').foldl
    (fun best frag => if best.length < frag.length then frag else best) []).asString

/-- The per-entry normalization applied inside `append_to_list_if_not_present`
(lines 151-152): strip salt fragments when a `.` separator is present, then
remove every `@` stereo marker.  The salt-stripping helper is passed in as a
parameter because it lives in an external package. -/
def clean_smiles (removeSalt : String → String) (s : String) : String :=
  pyRemoveChar '@' (if charsContain "." s then removeSalt s else s)

/-- Embeds `append_to_list_if_not_present` (lines 145-159).  The source
iterates over `zip(extra_list_names, extra_list_smiles)`; the zipped pairs
are the `extras` argument here.  An entry's cleaned structure is appended
(together with its raw name) exactly when it is not already in the
accumulated structure list. -/
def append_to_list_if_not_present (removeSalt : String → String)
    (base_list_names : List String) (base_list_smiles : List String)
    (extras : List (String × String)) : List String × List String :=
  match extras with
  | [] => (base_list_names, base_list_smiles)
  | (n, s) :: rest =>
      let cleaned := clean_smiles removeSalt s
      if base_list_smiles.contains cleaned then
        append_to_list_if_not_present removeSalt base_list_names base_list_smiles rest
      else
        append_to_list_if_not_present removeSalt (base_list_names ++ [n])
          (base_list_smiles ++ [cleaned]) rest

/-- Splits one line of a tab-separated file into its cells (the `sep='\t'`
of `pd.read_csv`). -/
def splitTabLine (line : String) : List String :=
  (line.toList.splitOn '\t').map List.asString

/-- Embeds `pd.read_csv(path, sep='\t')` as called by `load_extra_compounds`
(line 137): no `header=None` is passed, so pandas header inference consumes
the FIRST line of the file as the column-label row, and only the remaining
lines become data rows. -/
def read_csv_tab_default_header (lines : List String) : List (List String) :=
  (lines.drop 1).map splitTabLine

/-- Embeds `load_extra_compounds` (lines 135-142): the parsed table's column
0 becomes the extra compound names, column 1 the extra structures. -/
def load_extra_compounds (lines : List String) : List String × List String :=
  let rows := read_csv_tab_default_header lines
  (rows.map (fun r => r.getD 0 ""), rows.map (fun r => r.getD 1 ""))

/-- One row of the CSI:FingerID / COSMIC compound-identification table
(`load_csifingerid_cosmic_annotations`).  The two score columns can hold
NaN, hence `Option`. -/
structure SiriusRow where
  sid : String
  ConfidenceScore : Option ℚ
  ZodiacScore : Option ℚ
  name : String
  links : String
  smiles : String
deriving DecidableEq, Repr

/-- A Python value that is either the `False` sentinel or a number, as used
for the `zodiac_score` and `confidence_score` parameters of
`df_csifingerid_cosmic_annotations_filtering`. -/
inductive PyOptNum where
  | falseVal
  | num (q : ℚ)
deriving DecidableEq, Repr

/-- Python's `x != False` on such a value: since `False == 0` in Python, a
numeric `0` also compares equal to `False`. -/
def pyNeFalse : PyOptNum → Bool
  | .falseVal => false
  | .num q => decide (q ≠ 0)

/-- Python's `x != 0` on such a value (the guard at line 179); it coincides
with `x != False` because `False == 0` in Python. -/
def pyNeZero : PyOptNum → Bool
  | .falseVal => false
  | .num q => decide (q ≠ 0)

/-- Python's `x == False` on such a value. -/
def pyEqFalse : PyOptNum → Bool
  | .falseVal => true
  | .num q => decide (q = 0)

/-- The numeric content of the sentinel value (only consulted when the
corresponding guard passed, i.e. the value is a nonzero number). -/
def PyOptNum.val : PyOptNum → ℚ
  | .falseVal => 0
  | .num q => q

/-- Pandas `series >= q` on a possibly-NaN cell: a missing value never
satisfies the comparison. -/
def optGe (x : Option ℚ) (q : ℚ) : Bool :=
  match x with
  | some v => decide (q ≤ v)
  | none => false

/-- Embeds `df_csifingerid_cosmic_annotations_filtering` (lines 171-194).
The three predicates are applied sequentially to the current filtered set;
the Boolean result records whether the `No filter was applied !` notice was
printed (all three parameters left at their `False` sentinel, where a
numeric zero also counts as `False` in Python).  Caveat: the links branch
models `Series.str.contains(links, na=False)` as a literal substring test,
whereas pandas treats the pattern as a regular expression (the pipeline's
default `KEGG|HMDB` is a regex alternation); no theorem below exercises a
links pattern, so nothing proved here relies on that branch. -/
def df_csifingerid_cosmic_annotations_filtering (t : List SiriusRow)
    (zodiac_score : PyOptNum) (confidence_score : PyOptNum)
    (links : Option String) : List SiriusRow × Bool :=
  let t1 := if pyNeFalse zodiac_score then
      t.filter (fun r => optGe r.ZodiacScore zodiac_score.val)
    else t
  let t2 := if pyNeZero confidence_score then
      t1.filter (fun r => optGe r.ConfidenceScore confidence_score.val)
    else t1
  let t3 := match links with
    | some pat => t2.filter (fun r => charsContain pat r.links)
    | none => t2
  (t3, pyEqFalse zodiac_score && pyEqFalse confidence_score && links.isNone)

/-- A Python runtime error surfaced by the pipeline wrapper. -/
inductive PyRunError where
  | nameError (missing : String)
deriving DecidableEq, Repr

/-- Embeds `apply_filtering` in `vm_NAP_processing.py` (lines 272-281).
`compound_name_to_keep is None` returns the input row set; a truthy
(non-empty) list reaches `set(f_annotations_filtered['Compound_Name'])`,
whose name `f_annotations_filtered` is undefined (as is the
`df_annotations_filtered` callee on the next line), raising `NameError`;
a provided-but-empty list is falsy, falls through both branches, and the
function returns Python `None` (modelled as `Except.ok none`). -/
def apply_filtering (df : List AnnotRow) (compound_name_to_keep : Option (List String)) :
    Except PyRunError (Option (List AnnotRow)) :=
  match compound_name_to_keep with
  | none => Except.ok (some df)
  | some keep =>
      if keep.isEmpty then Except.ok none
      else Except.error (PyRunError.nameError "f_annotations_filtered")

/-! Helper lemmas about the embedded pandas primitives. -/

theorem mem_of_mem_dropDuplicates {α : Type} (key : α → String) (l : List α)
    (x : α) (h : x ∈ dropDuplicates key l) : x ∈ l := by
  induction l with
  | nil => simp [dropDuplicates] at h
  | cons r rs ih =>
    rcases List.mem_cons.1 h with h1 | h1
    · exact h1 ▸ List.mem_cons_self r rs
    · exact List.mem_cons_of_mem _ (ih (List.mem_of_mem_filter h1))

theorem mem_dropDuplicates_iff_find? {α : Type} (key : α → String) (l : List α)
    (x : α) :
    x ∈ dropDuplicates key l ↔ l.find? (fun y => key y == key x) = some x := by
  induction l with
  | nil => simp [dropDuplicates]
  | cons r rs ih =>
    by_cases hk : key r = key x
    · constructor
      · intro h
        rcases List.mem_cons.1 h with h1 | h1
        · subst h1
          simp [List.find?_cons, hk]
        · have hpass := List.of_mem_filter h1
          simp [hk] at hpass
      · intro h
        have hr : r = x := by
          have : (fun y => key y == key x) r = true := by simp [hk]
          simpa [List.find?_cons, this] using h
        exact hr ▸ List.mem_cons_self r _
    · have hhead : (fun y => key y == key x) r = false := by
        simpa using hk
      constructor
      · intro h
        rcases List.mem_cons.1 h with h1 | h1
        · exact absurd (h1 ▸ rfl) hk
        · have := ih.1 (List.mem_of_mem_filter h1)
          simpa [List.find?_cons, hhead] using this
      · intro h
        have h2 : rs.find? (fun y => key y == key x) = some x := by
          simpa [List.find?_cons, hhead] using h
        have hx : x ∈ dropDuplicates key rs := ih.2 h2
        refine List.mem_cons_of_mem _ (List.mem_filter.2 ⟨hx, ?_⟩)
        simpa using fun he => hk he.symm

theorem nodup_map_key_dropDuplicates {α : Type} (key : α → String) (l : List α) :
    ((dropDuplicates key l).map key).Nodup := by
  induction l with
  | nil => simp [dropDuplicates]
  | cons r rs ih =>
    simp only [dropDuplicates, List.map_cons, List.nodup_cons]
    constructor
    · intro hmem
      rcases List.mem_map.1 hmem with ⟨y, hy, hky⟩
      have hpass := List.of_mem_filter hy
      simp [hky] at hpass
    · exact ih.sublist ((List.filter_sublist _).map key)

theorem sortByMQScoreDesc_perm (df : List AnnotRow) :
    (sortByMQScoreDesc df).Perm df := by
  show ((List.insertionSort scoreAsc (df.filter (fun r => r.MQScore.isSome))).reverse
      ++ df.filter (fun r => !(r.MQScore.isSome))).Perm df
  refine List.Perm.trans (List.Perm.append ?_ (List.Perm.refl _))
    (List.filter_append_perm (fun r => r.MQScore.isSome) df)
  exact (List.reverse_perm _).trans (List.perm_insertionSort scoreAsc _)

theorem mem_sortByMQScoreDesc (df : List AnnotRow) (x : AnnotRow) :
    x ∈ sortByMQScoreDesc df ↔ x ∈ df :=
  (sortByMQScoreDesc_perm df).mem_iff

/-! The claims. -/

/-- C8: when all three predicates of `df_csifingerid_cosmic_annotations_filtering`
are left at the `False` sentinel, the compound-identification row set is
returned unchanged and the `No filter was applied !` notice is printed. -/
theorem C8_no_predicate_passthrough (t : List SiriusRow) :
    df_csifingerid_cosmic_annotations_filtering t PyOptNum.falseVal
      PyOptNum.falseVal none = (t, true) := rfl

/-- C5: each call to `prepare_for_virtual_metabolization` bulk-overwrites the
process-wide accumulator with that call's own output: after a second call the
accumulator equals the second call's output alone, independently of whatever
the first call (or anything else) left there. -/
theorem C5_accumulator_overwrite (acc acc2 : CompoundLists)
    (df1 df2 : List AnnotRow) (d1 u1 d2 u2 : Bool) :
    prepare_vm_call (prepare_vm_call acc df1 d1 u1) df2 d2 u2
        = prepare_vm_call acc2 df2 d2 u2
      ∧ prepare_vm_call acc df2 d2 u2
        = (prepare_for_virtual_metabolization df2 d2 u2).2 :=
  ⟨rfl, rfl⟩

/-- C6: `apply_filtering` returns the input row set when the allow-list is
`None`, raises a `NameError` (on the undefined `f_annotations_filtered`) for
any non-empty allow-list, and returns Python `None` for a provided-but-empty
allow-list. -/
theorem C6_apply_filtering_behavior (df : List AnnotRow) :
    apply_filtering df none = Except.ok (some df)
      ∧ (∀ keep : List String, keep ≠ [] →
          apply_filtering df (some keep)
            = Except.error (PyRunError.nameError "f_annotations_filtered"))
      ∧ apply_filtering df (some []) = Except.ok none := by
  refine ⟨rfl, ?_, rfl⟩
  intro keep hk
  cases keep with
  | nil => exact absurd rfl hk
  | cons a l => rfl

/-- Witness for C6 at a concrete non-empty allow-list. -/
theorem C6_apply_filtering_witness :
    apply_filtering [] (some ["Carnitine"])
      = Except.error (PyRunError.nameError "f_annotations_filtered") :=
  (C6_apply_filtering_behavior []).2.1 ["Carnitine"] (by decide)

def c3rowA : AnnotRow := ⟨"A", none, "sA", "sA", none, "t1"⟩

def c3rowB : AnnotRow := ⟨"B", none, "sB", "sB", none, "t2"⟩

def c3rowC : AnnotRow := ⟨"C", none, "sC", "sC", none, "t3"⟩

/-- C3: with both allow-lists given, `df_annotations_filtering` returns the
concatenation (union, duplicates possible) of the name-selected and the
tag-selected rows; with neither given it returns the rows unchanged and
prints the notice; on the spec's example the union is `[A, B]`, not the
empty intersection. -/
theorem C3_union_filter_semantics :
    (∀ (df : List AnnotRow) (cn tg : List String),
        df_annotations_filtering df (some cn) (some tg)
          = (df.filter (fun r => cn.contains r.Compound_Name)
              ++ df.filter (fun r => tg.contains r.tags), false))
      ∧ (∀ df : List AnnotRow, df_annotations_filtering df none none = (df, true))
      ∧ (df_annotations_filtering [c3rowA, c3rowB, c3rowC]
          (some ["A"]) (some ["t2"])).1 = [c3rowA, c3rowB] := by
  refine ⟨fun df cn tg => rfl, fun df => rfl, ?_⟩
  decide

def c7lines : List String :=
  ["aspirin\tCC(=O)Oc1ccccc1C(=O)O", "caffeine\tCn1cnc2c1c(=O)n(C)c(=O)n2C"]

/-- C7: `load_extra_compounds` parses the extra-compounds file with pandas
header inference, so the FIRST file row is consumed as a header and lost:
on a two-row file only the second row becomes an entry, and in general the
lists have one element per file row minus one, contradicting the documented
headerless format. -/
theorem C7_first_row_consumed_as_header :
    load_extra_compounds c7lines
        = (["caffeine"], ["Cn1cnc2c1c(=O)n(C)c(=O)n2C"])
      ∧ ∀ lines : List String,
          (load_extra_compounds lines).1.length = lines.length - 1 := by
  constructor
  · decide
  · intro lines
    simp [load_extra_compounds, read_csv_tab_default_header]

/-- C10: `get_info_gnps_annotations` is idempotent — run on its own output it
returns that output unchanged and discards zero further rows. -/
theorem C10_validator_idempotent (df : List AnnotRow) :
    get_info_gnps_annotations ((get_info_gnps_annotations df).1)
      = ((get_info_gnps_annotations df).1, 0) := by
  unfold get_info_gnps_annotations
  simp [List.filter_filter]

/-- C9: for every row set and every combination of the dedup and
planar/stereo flags, the null-sentinel string `nan` never appears in the
structure output list of `prepare_for_virtual_metabolization`. -/
theorem C9_null_sentinel_excluded (df : List AnnotRow) (dd up : Bool) :
    ((prepare_for_virtual_metabolization df dd up).2).list_smiles.contains "nan"
      = false := by
  rw [Bool.eq_false_iff]
  intro hcontains
  have h0 : "nan" ∈ ((prepare_for_virtual_metabolization df dd up).2).list_smiles := by
    simpa using hcontains
  have hmem : "nan" ∈ ((if dd then
      dropDuplicates (structField up) (sortByMQScoreDesc
        (df.filter (fun r => !(charsContain "nan" (structField up r)))))
    else
      df.filter (fun r => !(charsContain "nan" (structField up r)))).map
        (structField up)) := h0
  rcases List.mem_map.1 hmem with ⟨r, hr, hfield⟩
  have hkept : r ∈ df.filter
      (fun r => !(charsContain "nan" (structField up r))) := by
    cases dd with
    | false => exact hr
    | true =>
      exact (mem_sortByMQScoreDesc _ _).1
        (mem_of_mem_dropDuplicates _ _ _ hr)
  have hval := List.of_mem_filter hkept
  rw [hfield] at hval
  exact absurd hval (by decide)

def c1row1 : AnnotRow := ⟨"a", none, "C@C", "C@C", none, ""⟩

def c1row2 : AnnotRow := ⟨"b", none, "CC", "CC", none, ""⟩

/-- Counterexample to C1: with deduplication enabled,
`prepare_for_virtual_metabolization` deduplicates on the raw structure
strings, so two rows whose structures differ only by an `@` stereo marker
both survive, and the output then holds two entries that are equal after
salt-fragment and stereo-marker normalization. -/
theorem C1_normalized_dup_counterexample :
    ((prepare_for_virtual_metabolization [c1row1, c1row2] true true).2).list_smiles
        = ["C@C", "CC"]
      ∧ clean_smiles remove_salt_from_SMILES "C@C"
        = clean_smiles remove_salt_from_SMILES "CC" := by
  constructor
  · decide
  · decide

/-- C1 (amended): with deduplication enabled the structure output list of
`prepare_for_virtual_metabolization` contains no two entries with equal RAW
structure value (the dedup key is the structure field verbatim; salt-fragment
and stereo-marker normalization is applied only by the list merger, not
here). -/
theorem C1_dedup_unique_raw_structures (df : List AnnotRow) (up : Bool) :
    ((prepare_for_virtual_metabolization df true up).2).list_smiles.Nodup := by
  simp only [prepare_for_virtual_metabolization, if_true]
  exact nodup_map_key_dropDuplicates _ _

def c4row1 : AnnotRow := ⟨"a1", none, "A", "A", some (mkRat 5 10), ""⟩

def c4row2 : AnnotRow := ⟨"a2", none, "A", "A", some (mkRat 9 10), ""⟩

def c4row3 : AnnotRow := ⟨"b", none, "B", "B", some (mkRat 2 10), ""⟩

def c4tieA : AnnotRow := ⟨"a", none, "A", "A", some (mkRat 1 2), ""⟩

def c4tieB : AnnotRow := ⟨"b", none, "B", "B", some (mkRat 1 2), ""⟩

def c4nan : AnnotRow := ⟨"n", none, "N", "N", none, ""⟩

def c4scored : AnnotRow := ⟨"s", none, "S", "S", some (mkRat 1 2), ""⟩

/-- C2: for any salt-stripping helper, `append_to_list_if_not_present`
appends an entry iff its normalized structure (salt fragments stripped when a
`.` separator is present, then `@` stereo markers removed) is not already in
the accumulated structure list — so the first-seen entry in table processing
order wins — it never introduces a duplicate into a duplicate-free
accumulated structure list, and on the spec's example it merges
`[('y','CCO'),('z','CCN')]` into `names=['x'], structures=['CCO']` as
`names=['x','z'], structures=['CCO','CCN']`. -/
theorem C2_merge_semantics :
    (∀ (removeSalt : String → String) (bn bs : List String) (n s : String)
        (rest : List (String × String)),
        (bs.contains (clean_smiles removeSalt s) = true →
          append_to_list_if_not_present removeSalt bn bs ((n, s) :: rest)
            = append_to_list_if_not_present removeSalt bn bs rest)
        ∧ (bs.contains (clean_smiles removeSalt s) = false →
          append_to_list_if_not_present removeSalt bn bs ((n, s) :: rest)
            = append_to_list_if_not_present removeSalt (bn ++ [n])
                (bs ++ [clean_smiles removeSalt s]) rest))
      ∧ (∀ (removeSalt : String → String) (bn bs : List String)
          (extras : List (String × String)), bs.Nodup →
          ((append_to_list_if_not_present removeSalt bn bs extras).2).Nodup)
      ∧ (∀ removeSalt : String → String,
          append_to_list_if_not_present removeSalt ["x"] ["CCO"]
            [("y", "CCO"), ("z", "CCN")] = (["x", "z"], ["CCO", "CCN"])) := by
  refine ⟨?_, ?_, ?_⟩
  · intro removeSalt bn bs n s rest
    constructor
    · intro h
      simp only [append_to_list_if_not_present]
      rw [if_pos h]
    · intro h
      simp only [append_to_list_if_not_present]
      rw [if_neg (by rw [h]; exact Bool.false_ne_true)]
  · intro removeSalt bn bs extras
    induction extras generalizing bn bs with
    | nil => exact fun h => h
    | cons e rest ih =>
      intro hbs
      obtain ⟨n, s⟩ := e
      by_cases hc : bs.contains (clean_smiles removeSalt s) = true
      · simp only [append_to_list_if_not_present]
        rw [if_pos hc]
        exact ih bn bs hbs
      · simp only [append_to_list_if_not_present]
        rw [if_neg hc]
        refine ih (bn ++ [n]) (bs ++ [clean_smiles removeSalt s]) ?_
        have hnotmem : clean_smiles removeSalt s ∉ bs := by
          intro hmem
          exact hc (List.elem_eq_true_of_mem hmem)
        simp [List.nodup_append, hbs, hnotmem]
  · intro removeSalt
    rfl

/-- Witness for C2: the no-duplicate-introduction and first-entry-skip parts
applied at the spec's concrete accumulator and extra table, with the
spec-modelled salt stripper. -/
theorem C2_merge_semantics_witness :
    ((append_to_list_if_not_present remove_salt_from_SMILES ["x"] ["CCO"]
        [("y", "CCO"), ("z", "CCN")]).2).Nodup
      ∧ append_to_list_if_not_present remove_salt_from_SMILES ["x"] ["CCO"]
          [("y", "CCO")]
        = append_to_list_if_not_present remove_salt_from_SMILES ["x"] ["CCO"] [] :=
  ⟨C2_merge_semantics.2.1 remove_salt_from_SMILES ["x"] ["CCO"]
      [("y", "CCO"), ("z", "CCN")] (by decide),
   (C2_merge_semantics.1 remove_salt_from_SMILES ["x"] ["CCO"] "y" "CCO" []).1
      (by decide)⟩
